import Mathlib

/-!
Shallow embedding of the materiality-map web application (src/app.py).

Strings manipulated character by character are modelled as `List Char`
(converted to `String` with `String.mk` where the source produces a string
value); spreadsheet numbers are modelled as rationals; the pandas library
calls `pd.read_excel` and the startup template read are explicit parameters
of type `Except String DataFrame`, since their outcome depends on bytes the
handler merely forwards.  A Dash handler that lets an exception escape is
modelled as returning `none`.
-/

namespace DMM

/-- One spreadsheet row: the four columns the application reads.  Extra
columns of an upload are ignored by the code, so only membership of their
names in `cols` matters and they carry no modelled values. -/
structure Row where
  name : String
  impact : ℚ
  risk : ℚ
  subtopic : String
deriving DecidableEq

/-- A pandas DataFrame as the application uses it: a column-name list and
row-ordered records. -/
structure DataFrame where
  cols : List String
  rows : List Row
deriving DecidableEq

/-- `df.empty` in pandas: true when either axis has length zero. -/
def DataFrame.empty (df : DataFrame) : Bool :=
  df.rows.isEmpty || df.cols.isEmpty

/-- The four required column names (the set literal at src/app.py:252 and
src/app.py:38). -/
def requiredCols : List String :=
  ["Name of IRO", "Impact", "Risk", "Sub-Topic"]

/-- `required_cols.issubset(df.columns)`. -/
def has_required_cols (df : DataFrame) : Bool :=
  requiredCols.all (fun c => df.cols.contains c)

/-- Python `x or d` for an optional string: `None` and `""` are falsy. -/
def pyOrStr (x : Option String) (d : String) : String :=
  match x with
  | none => d
  | some s => if s = "" then d else s

/-- `str.replace("_", " ")`: a single-character substitution. -/
def pyReplaceUnderscore (l : List Char) : List Char :=
  l.map (fun c => if c = '_' then ' ' else c)

/-- `str.split()` with no argument: split on runs of whitespace, discarding
empty pieces. -/
def pySplitWs : List Char → List (List Char)
  | [] => []
  | c :: rest =>
    let tail := pySplitWs rest
    if c.isWhitespace then tail
    else
      match rest with
      | [] => [[c]]
      | r :: _ =>
        if r.isWhitespace then [c] :: tail
        else
          match tail with
          | [] => [[c]]
          | w :: ws => (c :: w) :: ws

/-- The characters of `"<br>"`. -/
def brChars : List Char := ['<', 'b', 'r', '>']

/-- `wrap_label` (src/app.py:48-53): replace underscores with spaces, split
into words, emit `' '.join(words[i:i+4])` for `i in range(0, len(words), 4)`
(encoded as the index map `i ↦ 4*i` over `range ⌈n/4⌉`, the same index
sequence), and join the lines with `"<br>"`. -/
def wrap_label (text : String) : String :=
  let clean := pyReplaceUnderscore text.toList
  let words := pySplitWs clean
  let lines := (List.range ((words.length + 3) / 4)).map
    (fun i => List.intercalate [' '] ((words.drop (4 * i)).take 4))
  String.mk (List.intercalate brChars lines)

/-- The in-place column update `df["Sub-Topic"] = df["Sub-Topic"].apply(wrap_label)`
restricted to one row. -/
def wrapRow (r : Row) : Row :=
  { r with subtopic := wrap_label r.subtopic }

/-- A plotly trace: one color group produced by `px.scatter(..., color="Sub-Topic")`,
with `(hover name, x = Risk, y = Impact)` points. -/
structure Trace where
  name : String
  points : List (String × ℚ × ℚ)
deriving DecidableEq

/-- Distinct values in order of first appearance: the color groups of
`px.scatter`. -/
def firstUniques : List String → List String
  | [] => []
  | a :: l => a :: (firstUniques l).filter (fun b => b != a)

/-- Group rows into scatter traces by (wrapped) sub-topic. -/
def tracesOf (rows : List Row) : List Trace :=
  (firstUniques (rows.map (fun r => r.subtopic))).map (fun s =>
    { name := s
      points := (rows.filter (fun r => r.subtopic == s)).map
        (fun r => (r.name, r.risk, r.impact)) })

/-- A plotly axis after `update_layout`; a freshly created axis keeps the
library defaults (auto range, zoomable, automatic ticks). -/
structure Axis where
  title : String := ""
  range : Option (ℚ × ℚ) := none
  fixedrange : Bool := false
  tickvals : List ℚ := []
  ticktext : List String := []
deriving DecidableEq

/-- The chart value a handler returns. -/
structure Figure where
  title : String
  width : Option Nat
  height : Option Nat
  xaxis : Axis
  yaxis : Axis
  traces : List Trace
deriving DecidableEq

/-- `px.scatter(title=t)` with no data: a bare figure that only carries a
title. -/
def px_scatter_title (t : String) : Figure :=
  { title := t, width := none, height := none, xaxis := {}, yaxis := {}, traces := [] }

/-- `generate_figure` (src/app.py:45-119).  The first component is the
returned figure; the second is the state of the caller's DataFrame after the
call, because line 55 assigns the wrapped labels back into the passed `df`. -/
def generate_figure (df : DataFrame) (company_name : String := "") : Figure × DataFrame :=
  let df1 : DataFrame :=
    if "Sub-Topic" ∈ df.cols then { df with rows := df.rows.map wrapRow } else df
  let title_text : String :=
    if company_name = "" then "<b>Double Materiality Map</b>"
    else "<b>" ++ company_name ++ " : Double Materiality Map</b>"
  let fig : Figure :=
    { title := title_text
      width := some 850
      height := some 620
      xaxis := { title := "Financial Materiality (Risk or Opportunity)"
                 range := some (0, 5.1)
                 fixedrange := true
                 tickvals := [1, 2, 3, 4, 5]
                 ticktext := ["1", "2", "3", "4", "5"] }
      yaxis := { title := "Impact Materiality"
                 range := some (0, 5.1)
                 fixedrange := true
                 tickvals := [1, 2, 3, 4, 5]
                 ticktext := ["1", "2", "3", "4", "5"] }
      traces := tracesOf df1.rows }
  (fig, df1)

/-- The hardcoded fallback dataset (src/app.py:20-32). -/
def fallback_data : DataFrame :=
  { cols := ["Name of IRO", "Impact", "Risk", "Sub-Topic"]
    rows :=
      [ { name := "Energy Efficiency", impact := 4, risk := 5, subtopic := "Environmental" }
      , { name := "Water Use", impact := 3, risk := 2, subtopic := "Environmental" }
      , { name := "Labor Practices", impact := 5, risk := 4, subtopic := "Social" }
      , { name := "GHG Emissions", impact := 5, risk := 5, subtopic := "Environmental" }
      , { name := "Diversity & Inclusion", impact := 2, risk := 3, subtopic := "Social" }
      , { name := "Product Safety", impact := 4, risk := 3, subtopic := "Social" }
      , { name := "Supply Chain Ethics", impact := 3, risk := 2, subtopic := "Social" }
      , { name := "Board Independence", impact := 1, risk := 1, subtopic := "Governance" }
      , { name := "Climate Risk Strategy", impact := 5, risk := 5, subtopic := "Environmental" }
      , { name := "Customer Privacy", impact := 2, risk := 4, subtopic := "Governance" } ] }

/-- The startup template load (src/app.py:36-42): `template` is the outcome
of `pd.read_excel(TEMPLATE_PATH)`, `Except.error` standing for any raised
exception. -/
def load_default (template : Except String DataFrame) : DataFrame :=
  match template with
  | Except.error _ => fallback_data
  | Except.ok df => if df.empty || !(has_required_cols df) then fallback_data else df

/-- The repository ships no `data/Materiality_Template.xlsx`, so the startup
read raises and the fallback is used. -/
def templateRead : Except String DataFrame :=
  Except.error "No such file or directory"

/-- The process-wide default dataset. -/
def df_default : DataFrame := load_default templateRead

/-- `contents.split(',')`: split on every comma; `"".split(',')` is `[""]`. -/
def splitComma : List Char → List (List Char)
  | [] => [[]]
  | c :: rest =>
    match splitComma rest with
    | [] => if c = ',' then [[], []] else [[c]]
    | g :: gs => if c = ',' then [] :: g :: gs else (c :: g) :: gs

/-- Membership in the standard base64 alphabet together with the padding
character. -/
def isB64Char (c : Char) : Bool :=
  ('A' ≤ c && c ≤ 'Z') || ('a' ≤ c && c ≤ 'z') || ('0' ≤ c && c ≤ '9') ||
    c = '+' || c = '/' || c = '='

/-- `base64.b64decode` in its default lenient mode: characters outside the
alphabet are discarded, and the call raises exactly when the surviving
length is not a multiple of four (the padding error).  The decoded bytes are
represented by the surviving base64 text itself; this loses nothing here
because every consumer of the bytes is an explicit function parameter. -/
def b64decode (s : List Char) : Option (List Char) :=
  let t := s.filter isB64Char
  if t.length % 4 = 0 then some t else none

/-- The fixed diagnostic title of src/app.py:254. -/
def missingColsTitle : String :=
  "Missing required columns: Name of IRO, Impact, Risk, Sub-Topic"

/-- `update_graph` (src/app.py:244-257).  `read_excel` stands for
`pd.read_excel` applied to the decoded upload bytes.  The first component is
`some` returned figure, or `none` when an exception escapes the handler
(the comma-unpacking `ValueError` of line 248 and the `binascii` error of
line 249 are outside the `try`).  The second component is the state of the
module-level `df_default` after the call: only the no-upload branch passes
it to `generate_figure`, which writes its Sub-Topic column. -/
def update_graph (read_excel : List Char → Except String DataFrame)
    (contents : Option (List Char)) (company_name : Option String) :
    Option Figure × DataFrame :=
  match contents with
  | none =>
    let r := generate_figure df_default (pyOrStr company_name "")
    (some r.1, r.2)
  | some c =>
    match splitComma c with
    | [_content_type, content_string] =>
      match b64decode content_string with
      | none => (none, df_default)
      | some decoded =>
        match read_excel decoded with
        | Except.error e =>
          (some (px_scatter_title ("Error reading file: " ++ e)), df_default)
        | Except.ok df =>
          if has_required_cols df then
            (some (generate_figure df (pyOrStr company_name "")).1, df_default)
          else
            (some (px_scatter_title missingColsTitle), df_default)
    | _ => (none, df_default)

/-- A calendar date for `datetime.now()`. -/
structure Date where
  year : Nat
  month : Nat
  day : Nat

/-- Two-digit zero-padded decimal, as `%m` and `%d` produce. -/
def pad2 (n : Nat) : String :=
  if n < 10 then "0" ++ toString n else toString n

/-- Four-digit zero-padded decimal, as `%Y` produces. -/
def pad4 (n : Nat) : String :=
  if n < 10 then "000" ++ toString n
  else if n < 100 then "00" ++ toString n
  else if n < 1000 then "0" ++ toString n
  else toString n

/-- `datetime.strftime('%Y%m%d')`. -/
def fmtYYYYMMDD (d : Date) : String :=
  pad4 d.year ++ pad2 d.month ++ pad2 d.day

/-- `str.lower()`. -/
def pyLower (s : String) : String :=
  String.mk (s.toList.map Char.toLower)

/-- `str.replace(' ', '_')`. -/
def pyReplaceSpaceUnd (s : String) : String :=
  String.mk (s.toList.map (fun c => if c = ' ' then '_' else c))

/-- What the export handler hands to `dcc.send_bytes`: the figure it
re-renders, the post-call state of `df_default`, the download filename, and
the `fig.to_image` arguments. -/
structure Download where
  figure : Figure
  dataset_after : DataFrame
  filename : String
  format : String
  png_width : Nat
  png_height : Nat
  png_scale : Nat

/-- `download_chart` (src/app.py:265-268); `now` is `datetime.now()`.  Note
the handler reads only the click count and the company name — no uploaded
dataset reaches it. -/
def download_chart (_n_clicks : Nat) (company_name : Option String) (now : Date) : Download :=
  let r := generate_figure df_default (pyOrStr company_name "")
  { figure := r.1
    dataset_after := r.2
    filename := "materiality_map_" ++
      pyReplaceSpaceUnd (pyLower (pyOrStr company_name "company")) ++ "_" ++
      fmtYYYYMMDD now ++ ".png"
    format := "png"
    png_width := 900
    png_height := 600
    png_scale := 2 }

/-- The figure placed in the initial layout (src/app.py:229), built with the
default company name; the second component is df_default's state afterwards. -/
def initial_figure : Figure × DataFrame :=
  generate_figure df_default

/-! Spec-side formulations, written from the specification's words, to be
compared with the definitions above. -/

/-- Groups of four consecutive elements, the last group possibly shorter. -/
def chunksOf4 {α : Type} : List α → List (List α)
  | [] => []
  | [a] => [[a]]
  | [a, b] => [[a, b]]
  | [a, b, c] => [[a, b, c]]
  | a :: b :: c :: d :: rest => [a, b, c, d] :: chunksOf4 rest

/-- The spec's wording of label wrapping: replace underscores with spaces,
split into words, join the words into lines of four, separate the lines with
line breaks. -/
def wrap_label_spec (text : String) : String :=
  String.mk (List.intercalate brChars
    ((chunksOf4 (pySplitWs (pyReplaceUnderscore text.toList))).map
      (List.intercalate [' '])))

/-- The spec's wording of the export slug: the company name lowercased with
spaces replaced by underscores, defaulting to "company" when the name is
blank. -/
def slug_spec (company : Option String) : String :=
  match company with
  | none => "company"
  | some s => if s = "" then "company" else pyReplaceSpaceUnd (pyLower s)

end DMM

namespace DMM

/-! Helper lemmas. -/

theorem lines_chunks_aux (fuel : Nat) : ∀ ws : List (List Char), ws.length ≤ fuel →
    (List.range ((ws.length + 3) / 4)).map
      (fun i => List.intercalate [' '] ((ws.drop (4 * i)).take 4))
      = (chunksOf4 ws).map (List.intercalate [' ']) := by
  induction fuel with
  | zero =>
    intro ws h
    have hnil : ws = [] := List.length_eq_zero.mp (Nat.le_zero.mp h)
    subst hnil; rfl
  | succ n ih =>
    intro ws h
    rcases ws with _ | ⟨a, _ | ⟨b, _ | ⟨c, _ | ⟨d, rest⟩⟩⟩⟩
    · rfl
    · simp [chunksOf4, List.range_succ]
    · simp [chunksOf4, List.range_succ]
    · simp [chunksOf4, List.range_succ]
    · have h1 : ((a :: b :: c :: d :: rest).length + 3) / 4 = (rest.length + 3) / 4 + 1 := by
        simp only [List.length_cons]
        omega
      rw [h1, List.range_succ_eq_map, List.map_cons, List.map_map]
      have hhead : List.intercalate [' ']
          (((a :: b :: c :: d :: rest).drop (4 * 0)).take 4) =
          List.intercalate [' '] [a, b, c, d] := rfl
      rw [hhead]
      have htail : (List.range ((rest.length + 3) / 4)).map
          ((fun i => List.intercalate [' ']
            (((a :: b :: c :: d :: rest).drop (4 * i)).take 4)) ∘ Nat.succ)
          = (chunksOf4 rest).map (List.intercalate [' ']) := by
        have hrest : rest.length ≤ n := by
          simp only [List.length_cons] at h; omega
        rw [← ih rest hrest]
        apply List.map_congr_left
        intro i _
        have h4 : 4 * Nat.succ i = 4 * i + 4 := by omega
        simp only [Function.comp_apply, h4]
        have hdrop : (a :: b :: c :: d :: rest).drop (4 * i + 4) = rest.drop (4 * i) := by
          have := List.drop_drop (4 * i) 4 (a :: b :: c :: d :: rest)
          simpa [Nat.add_comm] using this.symm
        rw [hdrop]
      rw [htail]
      rfl

theorem lines_chunks (ws : List (List Char)) :
    (List.range ((ws.length + 3) / 4)).map
      (fun i => List.intercalate [' '] ((ws.drop (4 * i)).take 4))
      = (chunksOf4 ws).map (List.intercalate [' ']) :=
  lines_chunks_aux ws.length ws (Nat.le_refl _)

theorem wrap_label_eq_spec (s : String) : wrap_label s = wrap_label_spec s :=
  congrArg (fun l => String.mk (List.intercalate brChars l))
    (lines_chunks (pySplitWs (pyReplaceUnderscore s.toList)))

theorem generate_default_state (c : String) :
    (generate_figure df_default c).2 = df_default := by
  rfl

end DMM

namespace DMM

theorem slug_code_eq_spec (company : Option String) :
    pyReplaceSpaceUnd (pyLower (pyOrStr company "company")) = slug_spec company := by
  match company with
  | none => decide
  | some s =>
    by_cases h : s = ""
    · subst h; decide
    · simp [pyOrStr, slug_spec, h]

/-- C7: `wrap_label` replaces every underscore with a space and joins the
resulting words into lines of four words separated by `<br>` line breaks;
in particular `"Climate_Risk_Strategy_And_Governance_Topics"` becomes the
two lines `"Climate Risk Strategy And"` and `"Governance Topics"`. -/
theorem wrap_label_wraps_in_fours :
    (∀ s : String, wrap_label s = wrap_label_spec s) ∧
    wrap_label "Climate_Risk_Strategy_And_Governance_Topics" =
      "Climate Risk Strategy And" ++ "<br>" ++ "Governance Topics" :=
  ⟨wrap_label_eq_spec, by decide⟩

/-- C6: whatever the dataset and company name, the generated figure's axes
have range exactly [0, 5.1], are non-zoomable, and tick exactly at 1-5. -/
theorem axes_fixed_range (df : DataFrame) (company : String) :
    (generate_figure df company).1.xaxis.range = some (0, 5.1) ∧
    (generate_figure df company).1.xaxis.fixedrange = true ∧
    (generate_figure df company).1.xaxis.tickvals = [1, 2, 3, 4, 5] ∧
    (generate_figure df company).1.xaxis.ticktext = ["1", "2", "3", "4", "5"] ∧
    (generate_figure df company).1.yaxis.range = some (0, 5.1) ∧
    (generate_figure df company).1.yaxis.fixedrange = true ∧
    (generate_figure df company).1.yaxis.tickvals = [1, 2, 3, 4, 5] ∧
    (generate_figure df company).1.yaxis.ticktext = ["1", "2", "3", "4", "5"] :=
  ⟨rfl, rfl, rfl, rfl, rfl, rfl, rfl, rfl⟩

/-- C5: on every export click the handler rebuilds the figure from the
process-wide default dataset and the current company name (no uploaded
dataset is even an input of the handler) and serializes it as a PNG,
900 by 600 at scale 2. -/
theorem export_uses_default_dataset (n : Nat) (company : Option String) (now : Date) :
    (download_chart n company now).figure =
      (generate_figure df_default (pyOrStr company "")).1 ∧
    (download_chart n company now).format = "png" ∧
    (download_chart n company now).png_width = 900 ∧
    (download_chart n company now).png_height = 600 ∧
    (download_chart n company now).png_scale = 2 :=
  ⟨rfl, rfl, rfl, rfl, rfl⟩

/-- C8: the export filename is `materiality_map_` + slug + `_` + YYYYMMDD +
`.png`, where the slug is the company name lowercased with spaces replaced
by underscores and defaults to "company" when the name is blank; for
"Acme Corp" on 2024-03-15 it is `materiality_map_acme_corp_20240315.png`. -/
theorem filename_format (n : Nat) (company : Option String) (now : Date) :
    ((download_chart n company now).filename =
      "materiality_map_" ++ slug_spec company ++ "_" ++ fmtYYYYMMDD now ++ ".png") ∧
    (download_chart 1 (some "Acme Corp") ⟨2024, 3, 15⟩).filename =
      "materiality_map_acme_corp_20240315.png" := by
  constructor
  · show "materiality_map_" ++ pyReplaceSpaceUnd (pyLower (pyOrStr company "company")) ++
        "_" ++ fmtYYYYMMDD now ++ ".png" =
      "materiality_map_" ++ slug_spec company ++ "_" ++ fmtYYYYMMDD now ++ ".png"
    rw [slug_code_eq_spec]
  · decide

/-- C3: the default dataset's rows and column values are unchanged by every
operation that uses it: a render with no upload, an export, and the initial
layout figure (the in-place Sub-Topic rewrite of `generate_figure` is the
identity on every fallback sub-topic label). -/
theorem df_default_never_mutated :
    (∀ rx : List Char → Except String DataFrame, ∀ company : Option String,
        (update_graph rx none company).2 = df_default) ∧
    (∀ n : Nat, ∀ company : Option String, ∀ now : Date,
        (download_chart n company now).dataset_after = df_default) ∧
    initial_figure.2 = df_default :=
  ⟨fun _ company => generate_default_state (pyOrStr company ""),
   fun _ company _ => generate_default_state (pyOrStr company ""),
   generate_default_state ""⟩

/-- C9: the startup loader falls back to the built-in constant dataset
exactly when the template read raises, the parsed table is empty, or a
required column is missing; the fallback has exactly ten items spanning
exactly three distinct sub-topic categories, and it is the default dataset
of this repository (which ships no template file). -/
theorem startup_fallback :
    (∀ e : String, load_default (Except.error e) = fallback_data) ∧
    (∀ df : DataFrame, df.empty = true ∨ has_required_cols df = false →
        load_default (Except.ok df) = fallback_data) ∧
    (∀ df : DataFrame, df.empty = false → has_required_cols df = true →
        load_default (Except.ok df) = df) ∧
    fallback_data.rows.length = 10 ∧
    (firstUniques (fallback_data.rows.map (fun r => r.subtopic))).length = 3 ∧
    df_default = fallback_data := by
  refine ⟨fun e => rfl, fun df h => ?_, fun df h1 h2 => ?_, by decide, by decide, rfl⟩
  · rcases h with h | h <;> simp [load_default, h]
  · simp [load_default, h1, h2]

def dfEmptyTest : DataFrame := { cols := requiredCols, rows := [] }

theorem startup_fallback_witness :
    load_default (Except.ok dfEmptyTest) = fallback_data ∧
    load_default (Except.error "FileNotFoundError") = fallback_data :=
  ⟨startup_fallback.2.1 dfEmptyTest (Or.inl (by decide)),
   startup_fallback.1 "FileNotFoundError"⟩

end DMM

namespace DMM

/-! Lemmas about the upload transport. -/

theorem splitComma_no_comma (l : List Char) (h : ',' ∉ l) : splitComma l = [l] := by
  induction l with
  | nil => rfl
  | cons c rest ih =>
    rw [List.mem_cons] at h
    push_neg at h
    show (match splitComma rest with
      | [] => if c = ',' then [[], []] else [[c]]
      | g :: gs => if c = ',' then [] :: g :: gs else (c :: g) :: gs) = [c :: rest]
    rw [ih h.2]
    simp [Ne.symm h.1]

theorem splitComma_data_uri (hdr pl : List Char) (hh : ',' ∉ hdr) (hp : ',' ∉ pl) :
    splitComma (hdr ++ ',' :: pl) = [hdr, pl] := by
  induction hdr with
  | nil =>
    show (match splitComma pl with
      | [] => if ',' = ',' then [[], []] else [[',']]
      | g :: gs => if ',' = ',' then [] :: g :: gs else (',' :: g) :: gs) = [[], pl]
    rw [splitComma_no_comma pl hp]
    simp
  | cons c rest ih =>
    rw [List.mem_cons] at hh
    push_neg at hh
    show (match splitComma (rest ++ ',' :: pl) with
      | [] => if c = ',' then [[], []] else [[c]]
      | g :: gs => if c = ',' then [] :: g :: gs else (c :: g) :: gs) = [c :: rest, pl]
    rw [ih hh.2]
    simp [Ne.symm hh.1]

theorem all_b64_no_comma (pl : List Char) (h : pl.all isB64Char = true) : ',' ∉ pl := by
  intro hm
  have h2 := List.all_eq_true.mp h ',' hm
  exact absurd h2 (by decide)

theorem b64decode_valid (pl : List Char) (h1 : pl.all isB64Char = true)
    (h2 : pl.length % 4 = 0) : b64decode pl = some pl := by
  have hf : pl.filter isB64Char = pl :=
    List.filter_eq_self.mpr (fun a ha => List.all_eq_true.mp h1 a ha)
  simp [b64decode, hf, h2]

/-- On a well-formed data URI the handler reaches the parse stage: the comma
split yields exactly the header and the payload, and the base64 decode
succeeds. -/
theorem update_graph_upload (rx : List Char → Except String DataFrame)
    (hdr pl : List Char) (company : Option String)
    (h0 : ',' ∉ hdr) (h1 : pl.all isB64Char = true) (h2 : pl.length % 4 = 0) :
    update_graph rx (some (hdr ++ ',' :: pl)) company =
      match rx pl with
      | Except.error e =>
        (some (px_scatter_title ("Error reading file: " ++ e)), df_default)
      | Except.ok df =>
        if has_required_cols df then
          (some (generate_figure df (pyOrStr company "")).1, df_default)
        else (some (px_scatter_title missingColsTitle), df_default) := by
  have hp : ',' ∉ pl := all_b64_no_comma pl h1
  simp only [update_graph, splitComma_data_uri hdr pl h0 hp,
    b64decode_valid pl h1 h2]

end DMM

namespace DMM

/-- C1: for every upload event whose contents string is a well-formed data
URI (a comma-free header, then a comma, then a base64 payload) and every
company name, `update_graph` returns a chart — `some` figure, i.e. no
exception escapes the handler — and whenever the spreadsheet parse fails
the chart's title is the error message after "Error reading file: ", hence
starts with "Error reading file:". -/
theorem update_graph_total_on_data_uris
    (rx : List Char → Except String DataFrame) (hdr pl : List Char)
    (company : Option String)
    (h0 : ',' ∉ hdr) (h1 : pl.all isB64Char = true) (h2 : pl.length % 4 = 0) :
    ∃ fig : Figure,
      (update_graph rx (some (hdr ++ ',' :: pl)) company).1 = some fig ∧
      ∀ e : String, rx pl = Except.error e →
        fig.title = "Error reading file: " ++ e ∧
        ∃ rest : String, fig.title = "Error reading file:" ++ rest := by
  rw [update_graph_upload rx hdr pl company h0 h1 h2]
  cases hrx : rx pl with
  | error e =>
    refine ⟨px_scatter_title ("Error reading file: " ++ e), rfl, ?_⟩
    intro e2 he2
    injection he2 with he2
    subst he2
    refine ⟨rfl, " " ++ e, ?_⟩
    show "Error reading file: " ++ e = "Error reading file:" ++ (" " ++ e)
    rw [← String.append_assoc]
    have hlit : ("Error reading file:" : String) ++ " " = "Error reading file: " := by decide
    rw [hlit]
  | ok df =>
    rcases Bool.eq_false_or_eq_true (has_required_cols df) with hc | hc
    · refine ⟨(generate_figure df (pyOrStr company "")).1, by simp [hc], ?_⟩
      intro e2 he2
      simp at he2
    · refine ⟨px_scatter_title missingColsTitle, by simp [hc], ?_⟩
      intro e2 he2
      simp at he2

def rxBoom : List Char → Except String DataFrame := fun _ => Except.error "boom"

def hdr0 : List Char := "t;base64".toList

def pl0 : List Char := "QUJD".toList

theorem update_graph_total_on_data_uris_witness :
    ∃ fig : Figure,
      (update_graph rxBoom (some (hdr0 ++ ',' :: pl0)) (some "Acme")).1 = some fig ∧
      ∀ e : String, rxBoom pl0 = Except.error e →
        fig.title = "Error reading file: " ++ e ∧
        ∃ rest : String, fig.title = "Error reading file:" ++ rest :=
  update_graph_total_on_data_uris rxBoom hdr0 pl0 (some "Acme")
    (by decide) (by decide) (by decide)

/-- An uploaded table that parses fine but has no `Risk` column (the `risk`
field of its row is a placeholder of the model; the real sheet simply lacks
the column). -/
def dfNoRisk : DataFrame :=
  { cols := ["Name of IRO", "Impact", "Sub-Topic"]
    rows := [{ name := "item", impact := 3, risk := 2, subtopic := "Environmental" }] }

def rxNoRisk : List Char → Except String DataFrame := fun _ => Except.ok dfNoRisk

/-- C4 counterexample: for an upload whose parsed table is missing only the
`Risk` column, the handler's title is the fixed string naming all four
required columns — it mentions `Impact`, a column that is present, and is
not the title listing only `Risk` — so the title does not list exactly the
missing columns. -/
theorem missing_cols_title_not_exact :
    (update_graph rxNoRisk (some (hdr0 ++ ',' :: pl0)) none).1 =
      some (px_scatter_title missingColsTitle) ∧
    ¬ ("Risk" ∈ dfNoRisk.cols) ∧
    "Impact" ∈ dfNoRisk.cols ∧
    missingColsTitle =
      "Missing required columns: Name of IRO, " ++ "Impact" ++ ", Risk, Sub-Topic" ∧
    missingColsTitle ≠ "Missing required columns: Risk" :=
  ⟨by decide, by decide, by decide, by decide, by decide⟩

/-- C4 amended: for every parsed upload lacking at least one required
column, the handler returns a chart whose title contains the literal text
"Missing required columns" and always lists all four required column names,
regardless of which ones are missing. -/
theorem missing_cols_title_lists_all
    (rx : List Char → Except String DataFrame) (hdr pl : List Char)
    (company : Option String) (df : DataFrame)
    (h0 : ',' ∉ hdr) (h1 : pl.all isB64Char = true) (h2 : pl.length % 4 = 0)
    (hok : rx pl = Except.ok df) (hmiss : has_required_cols df = false) :
    (update_graph rx (some (hdr ++ ',' :: pl)) company).1 =
      some (px_scatter_title missingColsTitle) ∧
    (∃ a b : String, missingColsTitle = a ++ "Missing required columns" ++ b) ∧
    (∀ c ∈ requiredCols, ∃ a b : String, missingColsTitle = a ++ c ++ b) := by
  refine ⟨?_, ⟨"", ": Name of IRO, Impact, Risk, Sub-Topic", by decide⟩, ?_⟩
  · rw [update_graph_upload rx hdr pl company h0 h1 h2, hok]
    simp [hmiss]
  · intro c hc
    simp only [requiredCols, List.mem_cons, List.not_mem_nil, or_false] at hc
    rcases hc with rfl | rfl | rfl | rfl
    · exact ⟨"Missing required columns: ", ", Impact, Risk, Sub-Topic", by decide⟩
    · exact ⟨"Missing required columns: Name of IRO, ", ", Risk, Sub-Topic", by decide⟩
    · exact ⟨"Missing required columns: Name of IRO, Impact, ", ", Sub-Topic", by decide⟩
    · exact ⟨"Missing required columns: Name of IRO, Impact, Risk, ", "", by decide⟩

theorem missing_cols_title_lists_all_witness :
    (update_graph rxNoRisk (some (hdr0 ++ ',' :: pl0)) (some "Acme")).1 =
      some (px_scatter_title missingColsTitle) ∧
    (∃ a b : String, missingColsTitle = a ++ "Missing required columns" ++ b) ∧
    (∀ c ∈ requiredCols, ∃ a b : String, missingColsTitle = a ++ c ++ b) :=
  missing_cols_title_lists_all rxNoRisk hdr0 pl0 (some "Acme") dfNoRisk
    (by decide) (by decide) (by decide) rfl (by decide)

end DMM

namespace DMM

/-- C10: an upload that parses, has all four required columns, and has zero
data rows is accepted: the handler returns the normally generated figure
for the empty dataset (its title is the normal one, its trace list is
empty), while the same empty table at startup would have been replaced by
the fallback — emptiness is rejected only for the template load. -/
theorem empty_upload_accepted
    (rx : List Char → Except String DataFrame) (hdr pl : List Char)
    (company : Option String) (df : DataFrame)
    (h0 : ',' ∉ hdr) (h1 : pl.all isB64Char = true) (h2 : pl.length % 4 = 0)
    (hok : rx pl = Except.ok df) (hcols : has_required_cols df = true)
    (hrows : df.rows = []) :
    (update_graph rx (some (hdr ++ ',' :: pl)) company).1 =
      some (generate_figure df (pyOrStr company "")).1 ∧
    (generate_figure df (pyOrStr company "")).1.title =
      (if pyOrStr company "" = "" then "<b>Double Materiality Map</b>"
       else "<b>" ++ pyOrStr company "" ++ " : Double Materiality Map</b>") ∧
    (generate_figure df (pyOrStr company "")).1.traces = [] ∧
    load_default (Except.ok df) = fallback_data := by
  refine ⟨?_, rfl, ?_, ?_⟩
  · rw [update_graph_upload rx hdr pl company h0 h1 h2, hok]
    simp [hcols]
  · by_cases hst : "Sub-Topic" ∈ df.cols
    · simp [generate_figure, if_pos hst, hrows, tracesOf, firstUniques]
    · simp [generate_figure, if_neg hst, hrows, tracesOf, firstUniques]
  · have he : df.empty = true := by simp [DataFrame.empty, hrows]
    simp [load_default, he]

def rxEmpty : List Char → Except String DataFrame := fun _ => Except.ok dfEmptyTest

theorem empty_upload_accepted_witness :
    (update_graph rxEmpty (some (hdr0 ++ ',' :: pl0)) none).1 =
      some (generate_figure dfEmptyTest (pyOrStr none "")).1 ∧
    (generate_figure dfEmptyTest (pyOrStr none "")).1.title =
      (if pyOrStr none "" = "" then "<b>Double Materiality Map</b>"
       else "<b>" ++ pyOrStr none "" ++ " : Double Materiality Map</b>") ∧
    (generate_figure dfEmptyTest (pyOrStr none "")).1.traces = [] ∧
    load_default (Except.ok dfEmptyTest) = fallback_data :=
  empty_upload_accepted rxEmpty hdr0 pl0 none dfEmptyTest
    (by decide) (by decide) (by decide) rfl (by decide) rfl

/-- A dataset on which the label rewrapping is not stable: the first label
wraps to "A B C D<br>E F", which rewraps to "A B C D<br>E<br>F" — the second
label's value, which is a fixed point of the wrapping. -/
def dfPair : DataFrame :=
  { cols := ["Name of IRO", "Impact", "Risk", "Sub-Topic"]
    rows :=
      [ { name := "x", impact := 1, risk := 1, subtopic := "A_B_C_D_E_F" }
      , { name := "y", impact := 2, risk := 2, subtopic := "A B C D<br>E<br>F" } ] }

/-- C2 counterexample: `generate_figure` rewrites its dataset argument's
Sub-Topic column in place, and the rewrite is not idempotent, so the second
call on the same dataset object can merge color groups: on `dfPair` the
first call draws 2 traces, the second call on the mutated object draws 1 —
not the same chart structure. -/
theorem second_call_changes_chart :
    (generate_figure dfPair "").1.traces.length = 2 ∧
    (generate_figure (generate_figure dfPair "").2 "").1.traces.length = 1 :=
  ⟨by decide, by decide⟩

/-- C2 amended: `generate_figure` is a pure function of its argument values,
so identical input values give identical charts; but because it rewrites the
dataset's Sub-Topic labels in place, a second call on the same dataset
object is only guaranteed to produce the same chart (and leave the dataset
stable) when every label's wrapped form is a fixed point of the wrapping —
e.g. when each label has at most four words and no line-break text. -/
theorem second_call_stable (df : DataFrame) (company : String)
    (h : ∀ r ∈ df.rows, wrap_label (wrap_label r.subtopic) = wrap_label r.subtopic) :
    generate_figure (generate_figure df company).2 company =
      generate_figure df company := by
  by_cases hst : "Sub-Topic" ∈ df.cols
  · have hstate : (generate_figure df company).2 =
        { df with rows := df.rows.map wrapRow } := by
      simp [generate_figure, if_pos hst]
    rw [hstate]
    have hrows : (df.rows.map wrapRow).map wrapRow = df.rows.map wrapRow := by
      rw [List.map_map]
      apply List.map_congr_left
      intro r hr
      simp [Function.comp, wrapRow, h r hr]
    simp [generate_figure, hst, hrows]
  · have hstate : (generate_figure df company).2 = df := by
      simp [generate_figure, if_neg hst]
    rw [hstate]

theorem second_call_stable_witness :
    generate_figure (generate_figure fallback_data "Acme").2 "Acme" =
      generate_figure fallback_data "Acme" :=
  second_call_stable fallback_data "Acme" (by decide)

end DMM
